import Mathlib

/-!
Verification of the arthur client bootstrap layer.

The embedding covers two parts of the repository:

* `src/arthur/connection.py` is embedded from source: `connect` /
  `_connectWithContextFactory` (splash, endpoint connect, the
  `closeSplash` addBoth callback and the `notifyFailure` errback),
  `_getContextFactory`, `_makeCredentials` and `_getDataPath`.
  Twisted deferred callback chains are embedded by direct function
  composition on an explicit result value: once the connection
  attempt has an outcome, every callback in the chain runs
  synchronously.  An errback that returns a plain value (not a
  failure) converts the failure into a success carrying that value,
  exactly as Twisted does.

* The `arthur.ui` module (Workbench, Header, prompt, alert, splash
  and notification tools) is not present under `src/`; only its test
  suite `src/arthur/test/test_ui.py` and its callers are.  Those
  parts are modelled from the spec, as marked on each definition.

Machine-level details that the claims do not touch (urwid widget
internals, TLS byte streams, PEM encodings) are represented by opaque
data: a key or certificate is a `Nat`, a PEM dump is a `Chunk`, a
tool widget is identified by the tool value itself.
-/

/-- A Tool on the workbench stack.  Modelled from the spec: a Tool is a
bundle of a name, a renderable and an anchor; the variants are the
interaction primitives (status splash, notification, prompt) plus
application-defined tools (`dummy`, as in the test suite).  The
renderable and anchor carry no information the claims need, so a tool
is identified by its kind, name and text. -/
inductive Tool where
  | splash (name text : String)
  | notification (name text : String)
  | promptTool (name text : String)
  | dummy (id : Nat) (name : String)
  deriving DecidableEq, Repr

/-- The name of a tool, shown in the header when the tool is on top. -/
def Tool.name : Tool → String
  | .splash n _ => n
  | .notification n _ => n
  | .promptTool n _ => n
  | .dummy _ n => n

/-- The message text of a tool (empty for application tools). -/
def Tool.text : Tool → String
  | .splash _ t => t
  | .notification _ t => t
  | .promptTool _ t => t
  | .dummy _ _ => ""

/-- Whether a tool is a notification. -/
def Tool.isNotif : Tool → Bool
  | .notification _ _ => true
  | _ => false

/-- Number of notification tools on a stack. -/
def notifCount (l : List Tool) : Nat :=
  l.countP (fun t => t.isNotif)

/-- The rendered surface.  Modelled from the spec: the rendering is a
constant background with the stacked tools layered over it, top to
bottom. -/
inductive Surface where
  | background
  | layer (t : Tool) (rest : Surface)
  deriving DecidableEq, Repr

/-- The surface under the topmost layer (background stays background). -/
def Surface.peel : Surface → Surface
  | .background => .background
  | .layer _ b => b

/-- The rendering dictated by a stack: every tool layered, top to
bottom, over the constant background. -/
def render : List Tool → Surface
  | [] => .background
  | t :: rest => .layer t (render rest)

/-- The header title dictated by a stack: the name of the top tool, or
empty for the empty stack. -/
def titleOf : List Tool → String
  | [] => ""
  | t :: _ => t.name

/-- The Workbench.  Modelled from the spec: it owns the ordered stack
of tools (head = top = most recently displayed), and maintains the
rendered body and the header title incrementally as operations run. -/
structure Workbench where
  tools : List Tool
  body : Surface
  title : String
  deriving DecidableEq, Repr

/-- The empty workbench: no tools, plain background, empty title. -/
def Workbench.empty : Workbench :=
  ⟨[], .background, ""⟩

/-- Modelled from the spec: `display(tool)` pushes the tool on top,
layers its renderable over the previous body, and sets the header
title to the tool name. -/
def Workbench.display (wb : Workbench) (t : Tool) : Workbench :=
  ⟨t :: wb.tools, .layer t wb.body, t.name⟩

/-- Modelled from the spec: `undisplay()` pops the top tool, unwraps
one layer of the body, and sets the title to the new top tool name
(empty when the stack becomes empty).  On an empty stack it is a
no-op. -/
def Workbench.undisplay (wb : Workbench) : Workbench :=
  match wb.tools with
  | [] => wb
  | _ :: rest => ⟨rest, wb.body.peel, titleOf rest⟩

/-- Modelled from the spec: `clear()` removes all tools in one step;
idempotent on an empty stack. -/
def Workbench.clear (_wb : Workbench) : Workbench :=
  ⟨[], .background, ""⟩

/-- One workbench operation, for reasoning about arbitrary operation
sequences. -/
inductive WbOp where
  | display (t : Tool)
  | undisplay
  | clear

/-- Apply one operation to a workbench. -/
def Workbench.app : Workbench → WbOp → Workbench
  | wb, .display t => wb.display t
  | wb, .undisplay => wb.undisplay
  | wb, .clear => wb.clear

/-- Run a sequence of operations, first operation first. -/
def Workbench.run (wb : Workbench) (ops : List WbOp) : Workbench :=
  ops.foldl Workbench.app wb

/-- The state of a prompt interaction: the workbench it was displayed
on, and its pending single-value continuation (`none` while pending,
`some t` once resolved with the entered text `t`). -/
structure PromptState where
  wb : Workbench
  result : Option String
  deriving DecidableEq, Repr

/-- Modelled from the spec: `prompt` displays a prompt tool with a
labeled text-entry field and returns a pending continuation. -/
def promptStart (wb : Workbench) (name text : String) : PromptState :=
  ⟨wb.display (.promptTool name text), none⟩

/-- Modelled from the spec: confirming the prompt resolves the pending
continuation with the entered text and pops the prompt tool.  The
click only reaches the prompt while it is the focused (topmost) tool,
and a consumed continuation cannot resolve again. -/
def promptConfirm (name text entered : String) (s : PromptState) : PromptState :=
  match s.wb.tools with
  | pt :: _ =>
    if pt = Tool.promptTool name text ∧ s.result = none then
      ⟨s.wb.undisplay, some entered⟩
    else s
  | [] => s

/-- A python-level error value.  `connectError` stands for a twisted
`ConnectError` (refused / unreachable / handshake failure);
`otherError` for any other exception.  The string carries the
printable representation of the error (what `{!r}`.format produces). -/
inductive PyErr where
  | connectError (desc : String)
  | otherError (desc : String)
  deriving DecidableEq, Repr

/-- The printable representation of an error, as interpolated by
`"...{!r}".format(f.value)` in `notifyFailure`. -/
def PyErr.reprStr : PyErr → String
  | .connectError d => d
  | .otherError d => d

/-- The result a deferred fires with: a success value or a failure. -/
inductive DResult (α : Type) where
  | ok (a : α)
  | fail (e : PyErr)
  deriving DecidableEq, Repr

/-- String containment: `sub` occurs contiguously inside `s`. -/
def containsStr (s sub : String) : Prop :=
  ∃ p q, s = p ++ sub ++ q

/-- The "Connecting" splash pushed by `_connectWithContextFactory`
(connection.py line 27). -/
def connectingSplash : Tool :=
  .splash "Connecting" "Connecting..."

/-- The notification text built in `notifyFailure` (connection.py
lines 41-43), with the repr of the trapped failure interpolated. -/
def connectFailText (r : String) : String :=
  "Connection failed! Check internet connection, or try again later. \nError: " ++ r

/-- The notification tool that `alert` pushes for a trapped
`ConnectError` whose repr is `d`. -/
def alertTool (d : String) : Tool :=
  .notification "Couldn\x27t connect" (connectFailText d)

/-- Modelled from the spec: `alert` displays a dismissible
notification and returns its pending no-value continuation (`none` =
not yet dismissed). -/
def alert (wb : Workbench) (name text : String) : Workbench × Option Unit :=
  (wb.display (.notification name text), none)

/-- The `closeSplash` addBoth callback (connection.py lines 33-36):
pops the splash via `undisplay` and returns its argument unchanged,
whatever the outcome was. -/
def closeSplash (wb : Workbench) (r : DResult Nat) : Workbench × DResult Nat :=
  (wb.undisplay, r)

/-- Outcome of a full `_connectWithContextFactory` run: the final
workbench, the value the returned deferred fires with (a session
handle on success, `none` when a trapped failure was converted to a
plain `None` return), and the state of the notification continuation
when one was created (`some none` = created and still pending). -/
structure ConnectOut where
  wb : Workbench
  result : DResult (Option Nat)
  alertD : Option (Option Unit)
  deriving DecidableEq, Repr

/-- The `notifyFailure` errback (connection.py lines 38-44): on a
trapped `ConnectError` it calls `alert` (discarding the returned
deferred) and returns `None`, which converts the failure into a
success carrying `None`; any other failure is re-raised by `trap`; a
success passes through untouched. -/
def notifyFailure (wb : Workbench) (r : DResult Nat) : ConnectOut :=
  match r with
  | .ok s => ⟨wb, .ok (some s), none⟩
  | .fail e =>
    match e with
    | .connectError d =>
      let a := alert wb "Couldn\x27t connect" (connectFailText (PyErr.connectError d).reprStr)
      ⟨a.1, .ok none, some a.2⟩
    | .otherError d => ⟨wb, .fail (.otherError d), none⟩

/-- Embeds `_connectWithContextFactory` (connection.py lines 24-45), given
the outcome the endpoint connect attempt resolves with: display the
"Connecting" splash, run the attempt, then run the callback chain
(`closeSplash` first, `notifyFailure` second) on the outcome. -/
def connectWithOutcome (wb : Workbench) (outcome : DResult Nat) : ConnectOut :=
  let wb1 := wb.display connectingSplash
  let p := closeSplash wb1 outcome
  notifyFailure p.1 p.2

/-- A PEM-serialized block inside the bundle file: the dump of a
private key or of a certificate (keys and certificates are opaque,
identified by a `Nat`). -/
inductive Chunk where
  | keyPem (k : Nat)
  | certPem (c : Nat)
  deriving DecidableEq, Repr

/-- Whether a chunk is a private-key dump. -/
def Chunk.isKey : Chunk → Bool
  | .keyPem _ => true
  | _ => false

/-- Whether a chunk is a certificate dump. -/
def Chunk.isCert : Chunk → Bool
  | .certPem _ => true
  | _ => false

/-- A bundle file state is complete when it is absent, or holds both a
key dump and a certificate dump. -/
def completeBundle : Option (List Chunk) → Bool
  | none => true
  | some l => l.any Chunk.isKey && l.any Chunk.isCert

/-- The sequence of file states a concurrent reader can observe while
`_makeCredentials` writes the bundle (connection.py lines 84-86): the
prior state, then the empty file left by the truncating
`open("wb")`, then the file after the private-key write, then the
file after the certificate write. -/
def writeBundleStates (prior : Option (List Chunk)) (key cert : Nat) :
    List (Option (List Chunk)) :=
  [prior, some [], some [.keyPem key], some [.keyPem key, .certPem cert]]

/-- The filesystem state the claims need: whether the data directory
exists, and the contents of `client.pem` (`none` = no file). -/
structure FS where
  dirExists : Bool
  pem : Option (List Chunk)
  deriving DecidableEq, Repr

/-- Outcomes of the fallible external steps inside `_makeCredentials`:
what `generateKey()` returns or raises, what `makeCertificate(key,
email)` returns or raises, and whether the disk write completes. -/
structure GenEnv where
  keyOutcome : DResult Nat
  certOutcome : Nat → String → DResult Nat
  writeOk : Bool

/-- Result of a `_makeCredentials` run: final workbench, final
filesystem, and normal return or raised exception. -/
structure CredOut where
  wb : Workbench
  fs : FS
  result : DResult Unit
  deriving Repr

/-- The "generating credentials" splash pushed by `_makeCredentials`
(connection.py lines 77-78). -/
def genSplash : Tool :=
  .splash "SSL credential generation"
    "Generating SSL credentials. (This can take a while.)"

/-- Embeds `_makeCredentials` (connection.py lines 71-88): display the
generation splash, generate a key, make a certificate, write both
dumps into `client.pem`, then `undisplay` the splash.  There is no
try/finally: an exception raised by any step propagates at once and
the `undisplay` on line 88 does not run.  A failing write leaves the
partially written file behind (the certificate write fails after the
key write succeeded). -/
def makeCredentials (env : GenEnv) (wb : Workbench) (fs : FS) (email : String) :
    CredOut :=
  let wb1 := wb.display genSplash
  match env.keyOutcome with
  | .fail e => ⟨wb1, fs, .fail e⟩
  | .ok key =>
    match env.certOutcome key email with
    | .fail e => ⟨wb1, fs, .fail e⟩
    | .ok cert =>
      if env.writeOk then
        ⟨wb1.undisplay,
         { fs with pem := some [.keyPem key, .certPem cert] }, .ok ()⟩
      else
        ⟨wb1, { fs with pem := some [.keyPem key] },
         .fail (.otherError "write failed")⟩

/-- The security context returned by `_getContextFactory`: the value
of `ssl.PrivateCertificate.loadPEM(pemFile.read()).options()`,
determined by the bytes read back from disk. -/
structure CtxFactory where
  pemData : List Chunk
  deriving DecidableEq, Repr

/-- Load a context from bundle-file contents (the composition of
`loadPEM` and `.options()` on connection.py lines 66-68). -/
def loadPEM (c : List Chunk) : CtxFactory :=
  ⟨c⟩

/-- The directory-ensuring step of `_getContextFactory` (connection.py
lines 56-58): if the data directory is not present, create it (and
its parents) with `makedirs`; otherwise do nothing.  Returns the new
state and the number of `makedirs` calls made. -/
def ensureDataDir (fs : FS) : FS × Nat :=
  if fs.dirExists then (fs, 0) else ({ fs with dirExists := true }, 1)

/-- Result of a `_getContextFactory` run: final workbench and
filesystem, how many user prompts and how many credential-generation
attempts it performed, and the returned context or raised
exception. -/
structure CtxOut where
  wb : Workbench
  fs : FS
  promptCount : Nat
  genAttempts : Nat
  result : DResult CtxFactory
  deriving Repr

/-- Embeds `_getContextFactory` (connection.py lines 48-68): ensure the data
directory, and if `client.pem` is not a file, prompt the user for an
email (the `email` argument is the text the user enters) and run
`_makeCredentials`; finally read `client.pem` back and return the
loaded context.  Exceptions from generation propagate uncaught. -/
def getContextFactory (env : GenEnv) (wb : Workbench) (fs : FS) (email : String) :
    CtxOut :=
  let fs1 := (ensureDataDir fs).1
  match fs1.pem with
  | some content => ⟨wb, fs1, 0, 0, .ok (loadPEM content)⟩
  | none =>
    let s1 := promptStart wb "E-mail entry" "Enter e-mail:"
    let s2 := promptConfirm "E-mail entry" "Enter e-mail:" email s1
    let out := makeCredentials env s2.wb fs1 email
    match out.result with
    | .fail e => ⟨out.wb, out.fs, 1, 1, .fail e⟩
    | .ok _ =>
      match out.fs.pem with
      | some content => ⟨out.wb, out.fs, 1, 1, .ok (loadPEM content)⟩
      | none => ⟨out.wb, out.fs, 1, 1, .fail (.otherError "missing pem")⟩

/-- Python `os.path.expanduser` restricted to the paths the program
uses: a leading `~` is replaced by the home directory. -/
def expanduser (home p : String) : String :=
  match p.data with
  | '~' :: rest => home ++ String.mk rest
  | _ => p

/-- Embeds `_getDataPath` (connection.py lines 94-104): a fixed directory
name under the user home, `Crypto101` on Windows and `.crypto101` on
every other platform. -/
def getDataPath (home sys : String) : String :=
  expanduser home (if sys = "Windows" then "~/Crypto101/" else "~/.crypto101/")

/-- Two consecutive `_getContextFactory` runs: the second starts from
the workbench and filesystem the first one left behind. -/
def runTwice (env : GenEnv) (wb : Workbench) (fs : FS) (email : String) :
    CtxOut × CtxOut :=
  let o1 := getContextFactory env wb fs email
  (o1, getContextFactory env o1.wb o1.fs email)

/-- The workbench invariant: the header title and the rendered body
are the ones dictated by the stack contents alone. -/
def wbInv (wb : Workbench) : Prop :=
  wb.title = titleOf wb.tools ∧ wb.body = render wb.tools

/-- A credential-generation environment in which every step succeeds,
for concrete instantiations. -/
def okEnv : GenEnv :=
  ⟨.ok 1, fun _ _ => .ok 2, true⟩

/-- A credential-generation environment in which `generateKey` raises,
for concrete instantiations. -/
def failKeyEnv : GenEnv :=
  ⟨.fail (.otherError "keygen failed"), fun _ _ => .ok 0, true⟩

/-- Helper: every workbench operation preserves the invariant. -/
theorem wbInv_app (wb : Workbench) (op : WbOp) (h : wbInv wb) : wbInv (wb.app op) := by
  obtain ⟨ht, hb⟩ := h
  cases op with
  | display t =>
    exact ⟨rfl, by simp [Workbench.app, Workbench.display, render, hb]⟩
  | undisplay =>
    obtain ⟨tools, body, title⟩ := wb
    cases tools with
    | nil => exact ⟨ht, hb⟩
    | cons t rest =>
      simp only [Workbench.app, Workbench.undisplay]
      simp only [render] at hb
      exact ⟨rfl, by rw [hb]; rfl⟩
  | clear => exact ⟨rfl, rfl⟩

/-- Helper: the invariant is preserved by any operation sequence. -/
theorem wbInv_run (ops : List WbOp) (wb : Workbench) (h : wbInv wb) :
    wbInv (wb.run ops) := by
  induction ops generalizing wb with
  | nil => exact h
  | cons op rest ih => exact ih (wb.app op) (wbInv_app wb op h)

/-- C7: after any sequence of display, undisplay and clear operations
starting from the empty workbench, the header title equals the name of
the top tool (empty for the empty stack) and the rendered body layers
exactly the stacked tools, top to bottom, over the background. -/
theorem workbench_render_title_invariant (ops : List WbOp) :
    (Workbench.empty.run ops).title = titleOf (Workbench.empty.run ops).tools ∧
    (Workbench.empty.run ops).body = render (Workbench.empty.run ops).tools :=
  wbInv_run ops Workbench.empty ⟨rfl, rfl⟩

/-- C8: confirming a freshly displayed prompt resolves its pending
continuation with exactly the entered text, removes the prompt tool
from the stack, and leaves the interaction unable to resolve again. -/
theorem prompt_confirm_resolves_once (wb : Workbench) (name text entered : String)
    (h : Tool.promptTool name text ∉ wb.tools) :
    (promptConfirm name text entered (promptStart wb name text)).result = some entered ∧
    Tool.promptTool name text ∉
      (promptConfirm name text entered (promptStart wb name text)).wb.tools ∧
    ∀ e2, promptConfirm name text e2 (promptConfirm name text entered (promptStart wb name text)) =
      promptConfirm name text entered (promptStart wb name text) := by
  have hs : promptConfirm name text entered (promptStart wb name text) =
      ⟨⟨wb.tools, wb.body, titleOf wb.tools⟩, some entered⟩ := by
    simp [promptConfirm, promptStart, Workbench.display, Workbench.undisplay, Surface.peel]
  refine ⟨by rw [hs], by rw [hs]; exact h, ?_⟩
  intro e2
  rw [hs]
  cases htools : wb.tools with
  | nil => simp [promptConfirm, htools]
  | cons a l => simp [promptConfirm, htools]

/-- C8 witness: a concrete prompt interaction, with a concrete second
confirmation attempt left without effect. -/
theorem prompt_confirm_resolves_once_witness :
    (promptConfirm "E-mail entry" "Enter e-mail:" "a@b.com"
        (promptStart Workbench.empty "E-mail entry" "Enter e-mail:")).result = some "a@b.com" ∧
    Tool.promptTool "E-mail entry" "Enter e-mail:" ∉
      (promptConfirm "E-mail entry" "Enter e-mail:" "a@b.com"
        (promptStart Workbench.empty "E-mail entry" "Enter e-mail:")).wb.tools ∧
    promptConfirm "E-mail entry" "Enter e-mail:" "second"
        (promptConfirm "E-mail entry" "Enter e-mail:" "a@b.com"
          (promptStart Workbench.empty "E-mail entry" "Enter e-mail:")) =
      promptConfirm "E-mail entry" "Enter e-mail:" "a@b.com"
        (promptStart Workbench.empty "E-mail entry" "Enter e-mail:") := by
  have h := prompt_confirm_resolves_once Workbench.empty "E-mail entry" "Enter e-mail:"
    "a@b.com" (by decide)
  exact ⟨h.1, h.2.1, h.2.2 "second"⟩

/-- C5: for every outcome of the connection attempt, the `closeSplash`
callback pops the just-displayed "Connecting" splash exactly once
(the stack reverts to its pre-splash contents and the splash is gone)
and passes the attempt result through unchanged. -/
theorem closeSplash_pops_once_passes_result (wb : Workbench) (r : DResult Nat)
    (h : connectingSplash ∉ wb.tools) :
    (closeSplash (wb.display connectingSplash) r).2 = r ∧
    (closeSplash (wb.display connectingSplash) r).1.tools = wb.tools ∧
    connectingSplash ∉ (closeSplash (wb.display connectingSplash) r).1.tools :=
  ⟨rfl, rfl, h⟩

/-- C5 witness: a concrete successful outcome through `closeSplash`. -/
theorem closeSplash_pops_once_passes_result_witness :
    (closeSplash (Workbench.empty.display connectingSplash) (.ok 5)).2 = .ok 5 ∧
    (closeSplash (Workbench.empty.display connectingSplash) (.ok 5)).1.tools
      = Workbench.empty.tools ∧
    connectingSplash ∉ (closeSplash (Workbench.empty.display connectingSplash) (.ok 5)).1.tools :=
  closeSplash_pops_once_passes_result Workbench.empty (.ok 5) (by decide)

/-- C1 counterexample: on a refused connection the deferred returned
by `connect` does not resolve as failed — the `notifyFailure` errback
traps the `ConnectError` and returns `None`, so the deferred fires
with the success value `None`. -/
theorem connect_connectError_not_failed_cex :
    (connectWithOutcome Workbench.empty (.fail (.connectError "refused"))).result
      = .ok none ∧
    ¬ ∃ e, (connectWithOutcome Workbench.empty (.fail (.connectError "refused"))).result
      = DResult.fail e := by
  refine ⟨rfl, ?_⟩
  rintro ⟨e, he⟩
  rw [show (connectWithOutcome Workbench.empty (.fail (.connectError "refused"))).result
      = .ok none from rfl] at he
  cases he

/-- C1 amended: on a connection-establishment failure, exactly one
dismissible error notification is displayed, its message embeds the
printable representation of the underlying error, and the deferred
returned by `connect` resolves as a success carrying `None` (the
failure is consumed by the errback), not as a failure. -/
theorem connect_connectError_notifies_resolves_ok (wb : Workbench) (d : String)
    (hn : notifCount wb.tools = 0) :
    (connectWithOutcome wb (.fail (.connectError d))).wb.tools = alertTool d :: wb.tools ∧
    notifCount (connectWithOutcome wb (.fail (.connectError d))).wb.tools = 1 ∧
    containsStr (alertTool d).text d ∧
    (connectWithOutcome wb (.fail (.connectError d))).result = .ok none := by
  refine ⟨rfl, ?_, ?_, rfl⟩
  · show notifCount (alertTool d :: wb.tools) = 1
    simp [notifCount, List.countP_cons, alertTool, Tool.isNotif] at hn ⊢
    simpa [notifCount] using hn
  · exact ⟨"Connection failed! Check internet connection, or try again later. \nError: ", "",
      (String.append_empty _).symm⟩

/-- C1 witness: a concrete refused connection. -/
theorem connect_connectError_notifies_resolves_ok_witness :
    (connectWithOutcome Workbench.empty (.fail (.connectError "refused"))).wb.tools
      = alertTool "refused" :: Workbench.empty.tools ∧
    notifCount (connectWithOutcome Workbench.empty
      (.fail (.connectError "refused"))).wb.tools = 1 ∧
    containsStr (alertTool "refused").text "refused" ∧
    (connectWithOutcome Workbench.empty (.fail (.connectError "refused"))).result = .ok none :=
  connect_connectError_notifies_resolves_ok Workbench.empty "refused" (by decide)

/-- C10: on a connection-establishment failure, `connect` resolves
without waiting for the notification to be dismissed: the deferred
has already fired with `None` while the notification tool is still on
the stack and its own continuation is still pending (it was
discarded, not chained). -/
theorem connect_failure_does_not_wait_for_dismissal (wb : Workbench) (d : String) :
    (connectWithOutcome wb (.fail (.connectError d))).result = .ok none ∧
    alertTool d ∈ (connectWithOutcome wb (.fail (.connectError d))).wb.tools ∧
    (connectWithOutcome wb (.fail (.connectError d))).alertD = some none :=
  ⟨rfl, List.mem_cons_self _ _, rfl⟩

/-- C2 counterexample: when `generateKey` raises, `_makeCredentials`
exits with the generation splash still on the stack — the `undisplay`
on line 88 is skipped because there is no try/finally. -/
theorem makeCredentials_raise_keeps_splash_cex :
    genSplash ∈ (makeCredentials failKeyEnv Workbench.empty ⟨true, none⟩ "a@b.com").wb.tools ∧
    (makeCredentials failKeyEnv Workbench.empty ⟨true, none⟩ "a@b.com").result
      = .fail (.otherError "keygen failed") :=
  ⟨by decide, rfl⟩

/-- C2 amended: the generation splash is popped when the generation
step returns normally, but when key generation, certificate creation
or the disk write raises, the splash is not popped and remains on the
stack when `_makeCredentials` exits. -/
theorem makeCredentials_splash_dismissal (env : GenEnv) (wb : Workbench) (fs : FS)
    (email : String) (h : genSplash ∉ wb.tools) :
    ((makeCredentials env wb fs email).result = .ok () →
      (makeCredentials env wb fs email).wb.tools = wb.tools ∧
      genSplash ∉ (makeCredentials env wb fs email).wb.tools) ∧
    (∀ e, (makeCredentials env wb fs email).result = .fail e →
      genSplash ∈ (makeCredentials env wb fs email).wb.tools) := by
  cases hk : env.keyOutcome with
  | fail e =>
    refine ⟨fun hok => ?_, fun e2 _ => ?_⟩
    · simp [makeCredentials, hk] at hok
    · simp only [makeCredentials, hk]
      exact List.mem_cons_self _ _
  | ok key =>
    cases hc : env.certOutcome key email with
    | fail e =>
      refine ⟨fun hok => ?_, fun e2 _ => ?_⟩
      · simp [makeCredentials, hk, hc] at hok
      · simp only [makeCredentials, hk, hc]
        exact List.mem_cons_self _ _
    | ok cert =>
      by_cases hw : env.writeOk = true
      · refine ⟨fun _ => ⟨?_, ?_⟩, fun e2 hfail => ?_⟩
        · simp [makeCredentials, hk, hc, hw, Workbench.display, Workbench.undisplay]
        · simp only [makeCredentials, hk, hc, hw, if_true]
          simpa [Workbench.display, Workbench.undisplay] using h
        · simp [makeCredentials, hk, hc, hw] at hfail
      · refine ⟨fun hok => ?_, fun e2 _ => ?_⟩
        · simp [makeCredentials, hk, hc, hw] at hok
        · simp only [makeCredentials, hk, hc, hw, if_false]
          simp only [Bool.not_eq_true] at hw
          simp only [hw, Bool.false_eq_true, if_false]
          exact List.mem_cons_self _ _

/-- C2 amended witness: a concrete run in which every step succeeds
pops the splash. -/
theorem makeCredentials_splash_dismissal_witness :
    (makeCredentials okEnv Workbench.empty ⟨true, none⟩ "a@b.com").wb.tools
      = Workbench.empty.tools ∧
    genSplash ∉ (makeCredentials okEnv Workbench.empty ⟨true, none⟩ "a@b.com").wb.tools := by
  have h := makeCredentials_splash_dismissal okEnv Workbench.empty ⟨true, none⟩ "a@b.com"
    (by decide)
  exact h.1 (by decide)

/-- C3 counterexample: during the bundle write a concurrent reader can
observe a file state holding the private key but no certificate, so
the write is not atomic. -/
theorem bundle_write_incomplete_state_cex :
    some [Chunk.keyPem 0] ∈ writeBundleStates none 0 0 ∧
    completeBundle (some [Chunk.keyPem 0]) = false := by decide

/-- C3 amended: the bundle is written in place — a concurrent reader
can observe the truncated empty file and the key-only file before the
certificate write lands; only the final state is complete, and a
write failure after the key write leaves the key-only partial file
behind. -/
theorem bundle_write_inplace_states (prior : Option (List Chunk)) (key cert : Nat)
    (wb : Workbench) (fs : FS) (email : String) :
    (some [] ∈ writeBundleStates prior key cert ∧ completeBundle (some []) = false) ∧
    (some [Chunk.keyPem key] ∈ writeBundleStates prior key cert ∧
      completeBundle (some [Chunk.keyPem key]) = false) ∧
    completeBundle ((writeBundleStates prior key cert).getLastD none) = true ∧
    (makeCredentials ⟨.ok key, fun _ _ => .ok cert, false⟩ wb fs email).fs.pem
      = some [Chunk.keyPem key] ∧
    (makeCredentials ⟨.ok key, fun _ _ => .ok cert, false⟩ wb fs email).result
      = .fail (.otherError "write failed") := by
  refine ⟨⟨?_, rfl⟩, ⟨?_, ?_⟩, ?_, rfl, rfl⟩
  · simp [writeBundleStates]
  · simp [writeBundleStates]
  · simp [completeBundle, Chunk.isKey, Chunk.isCert]
  · simp [writeBundleStates, completeBundle, Chunk.isKey, Chunk.isCert]

/-- Helper: ensuring the data directory does not touch the bundle file. -/
theorem ensureDataDir_pem (fs : FS) : (ensureDataDir fs).1.pem = fs.pem := by
  unfold ensureDataDir
  by_cases hd : fs.dirExists <;> simp [hd]

/-- Helper: when the bundle file exists, `_getContextFactory` returns
at once with the loaded context and performs nothing else. -/
theorem getContextFactory_existing (env : GenEnv) (wb : Workbench) (fs : FS)
    (email : String) (content : List Chunk) (h : fs.pem = some content) :
    getContextFactory env wb fs email
      = ⟨wb, (ensureDataDir fs).1, 0, 0, .ok (loadPEM content)⟩ := by
  have h1 : (ensureDataDir fs).1.pem = some content := by rw [ensureDataDir_pem, h]
  simp [getContextFactory, h1]

/-- Helper: when the bundle file is missing and every generation step
succeeds, `_getContextFactory` prompts once, generates once, persists
the bundle and returns the context loaded back from it. -/
theorem getContextFactory_missing (env : GenEnv) (wb : Workbench) (fs : FS)
    (email : String) (k c : Nat) (hp : fs.pem = none)
    (hk : env.keyOutcome = .ok k) (hc : env.certOutcome k email = .ok c)
    (hw : env.writeOk = true) :
    getContextFactory env wb fs email =
      ⟨⟨wb.tools, wb.body, titleOf wb.tools⟩, ⟨true, some [.keyPem k, .certPem c]⟩, 1, 1,
        .ok (loadPEM [.keyPem k, .certPem c])⟩ := by
  have hfs1 : (ensureDataDir fs).1 = ⟨true, none⟩ := by
    unfold ensureDataDir
    by_cases hd : fs.dirExists
    · obtain ⟨d, p⟩ := fs
      simp at hd hp
      simp [hd, hp]
    · obtain ⟨d, p⟩ := fs
      simp at hd hp
      simp [hd, hp]
  have hprompt : (promptConfirm "E-mail entry" "Enter e-mail:" email
      (promptStart wb "E-mail entry" "Enter e-mail:")).wb
        = ⟨wb.tools, wb.body, titleOf wb.tools⟩ := by
    simp [promptConfirm, promptStart, Workbench.display, Workbench.undisplay, Surface.peel]
  have hmc : makeCredentials env (⟨wb.tools, wb.body, titleOf wb.tools⟩ : Workbench)
      (⟨true, none⟩ : FS) email =
      ⟨⟨wb.tools, wb.body, titleOf wb.tools⟩, ⟨true, some [.keyPem k, .certPem c]⟩, .ok ()⟩ := by
    simp [makeCredentials, hk, hc, hw, Workbench.display, Workbench.undisplay, Surface.peel,
      titleOf]
  simp [getContextFactory, hfs1, hprompt, hmc]

/-- Helper: whenever `_getContextFactory` returns a context, that
context is exactly the one loaded from the final on-disk contents of
the bundle file. -/
theorem getContextFactory_ok_from_disk (env : GenEnv) (wb : Workbench) (fs : FS)
    (email : String) (ctx : CtxFactory)
    (h : (getContextFactory env wb fs email).result = .ok ctx) :
    (getContextFactory env wb fs email).fs.pem = some ctx.pemData := by
  cases hfp : (ensureDataDir fs).1.pem with
  | some content =>
    have he := getContextFactory_existing env wb fs email content
      (by rw [← ensureDataDir_pem fs]; exact hfp)
    rw [he] at h ⊢
    simp [loadPEM] at h
    simp [← h, loadPEM, hfp]
  | none =>
    cases hk : env.keyOutcome with
    | fail e =>
      simp [getContextFactory, hfp, makeCredentials, hk] at h
    | ok key =>
      cases hc : env.certOutcome key email with
      | fail e =>
        simp [getContextFactory, hfp, makeCredentials, hk, hc] at h
      | ok cert =>
        by_cases hw : env.writeOk = true
        · simp [getContextFactory, hfp, makeCredentials, hk, hc, hw, loadPEM] at h ⊢
          simp [← h]
        · simp [getContextFactory, hfp, makeCredentials, hk, hc, hw] at h

/-- C4: when the identity file already exists, `_getContextFactory`
performs no prompt and no generation and returns the context loaded
from the persisted bundle; hence two consecutive calls on a fresh
store (with every generation step succeeding) provision exactly once
and the second call returns the same persisted identity. -/
theorem ensureIdentity_provisions_once (env : GenEnv) (wb : Workbench) (fs : FS)
    (email : String) (k c : Nat) (hp : fs.pem = none)
    (hk : env.keyOutcome = .ok k) (hc : env.certOutcome k email = .ok c)
    (hw : env.writeOk = true) :
    ((runTwice env wb fs email).1.promptCount = 1 ∧
      (runTwice env wb fs email).1.genAttempts = 1 ∧
      (runTwice env wb fs email).1.result = .ok (loadPEM [.keyPem k, .certPem c])) ∧
    ((runTwice env wb fs email).2.promptCount = 0 ∧
      (runTwice env wb fs email).2.genAttempts = 0 ∧
      (runTwice env wb fs email).2.result = (runTwice env wb fs email).1.result) ∧
    (runTwice env wb fs email).1.genAttempts + (runTwice env wb fs email).2.genAttempts = 1 ∧
    (∀ (wb2 : Workbench) (fs2 : FS) (content : List Chunk), fs2.pem = some content →
      (getContextFactory env wb2 fs2 email).promptCount = 0 ∧
      (getContextFactory env wb2 fs2 email).genAttempts = 0 ∧
      (getContextFactory env wb2 fs2 email).result = .ok (loadPEM content)) := by
  have hfirst := getContextFactory_missing env wb fs email k c hp hk hc hw
  have hexist : ∀ (wb2 : Workbench) (fs2 : FS) (content : List Chunk),
      fs2.pem = some content →
      (getContextFactory env wb2 fs2 email).promptCount = 0 ∧
      (getContextFactory env wb2 fs2 email).genAttempts = 0 ∧
      (getContextFactory env wb2 fs2 email).result = .ok (loadPEM content) := by
    intro wb2 fs2 content h2
    rw [getContextFactory_existing env wb2 fs2 email content h2]
    exact ⟨rfl, rfl, rfl⟩
  have hsecond := hexist ⟨wb.tools, wb.body, titleOf wb.tools⟩
    ⟨true, some [.keyPem k, .certPem c]⟩ [.keyPem k, .certPem c] rfl
  have e1 : (runTwice env wb fs email).1 = getContextFactory env wb fs email := rfl
  have e2 : (runTwice env wb fs email).2 = getContextFactory env
      (getContextFactory env wb fs email).wb (getContextFactory env wb fs email).fs email := rfl
  rw [e1, e2, hfirst]
  exact ⟨⟨rfl, rfl, rfl⟩, ⟨hsecond.1, hsecond.2.1, by rw [hsecond.2.2]⟩,
    by rw [hsecond.2.1], hexist⟩

/-- C4 witness: a concrete fresh store, provisioned once across two
consecutive calls. -/
theorem ensureIdentity_provisions_once_witness :
    ((runTwice okEnv Workbench.empty ⟨false, none⟩ "a@b.com").1.promptCount = 1 ∧
      (runTwice okEnv Workbench.empty ⟨false, none⟩ "a@b.com").1.genAttempts = 1 ∧
      (runTwice okEnv Workbench.empty ⟨false, none⟩ "a@b.com").1.result
        = .ok (loadPEM [.keyPem 1, .certPem 2])) ∧
    ((runTwice okEnv Workbench.empty ⟨false, none⟩ "a@b.com").2.promptCount = 0 ∧
      (runTwice okEnv Workbench.empty ⟨false, none⟩ "a@b.com").2.genAttempts = 0 ∧
      (runTwice okEnv Workbench.empty ⟨false, none⟩ "a@b.com").2.result
        = (runTwice okEnv Workbench.empty ⟨false, none⟩ "a@b.com").1.result) ∧
    (runTwice okEnv Workbench.empty ⟨false, none⟩ "a@b.com").1.genAttempts
      + (runTwice okEnv Workbench.empty ⟨false, none⟩ "a@b.com").2.genAttempts = 1 := by
  have h := ensureIdentity_provisions_once okEnv Workbench.empty ⟨false, none⟩ "a@b.com" 1 2
    rfl rfl rfl rfl
  exact ⟨h.1, h.2.1, h.2.2.1⟩

/-- C6: the store directory is a fixed name under the user home that
depends only on whether the platform is the Windows family; the
directory-ensuring step creates it when absent and is a no-op (no
call, no failure) when it already exists. -/
theorem locateStoreDirectory_spec (home sys s1 s2 : String) (fs : FS) :
    getDataPath home "Windows" = home ++ "/Crypto101/" ∧
    (sys ≠ "Windows" → getDataPath home sys = home ++ "/.crypto101/") ∧
    ((s1 = "Windows" ↔ s2 = "Windows") → getDataPath home s1 = getDataPath home s2) ∧
    (ensureDataDir fs).1.dirExists = true ∧
    (fs.dirExists = true → ensureDataDir fs = (fs, 0)) := by
  refine ⟨rfl, ?_, ?_, ?_, ?_⟩
  · intro h
    simp [getDataPath, expanduser, h]
  · intro hiff
    by_cases h1 : s1 = "Windows"
    · rw [h1, hiff.mp h1]
    · have h2 : ¬ s2 = "Windows" := fun hh => h1 (hiff.mpr hh)
      simp [getDataPath, h1, h2]
  · unfold ensureDataDir
    by_cases hd : fs.dirExists <;> simp [hd]
  · intro hd
    simp [ensureDataDir, hd]

/-- C6 witness: concrete home and platforms. -/
theorem locateStoreDirectory_spec_witness :
    getDataPath "/home/u" "Windows" = "/home/u" ++ "/Crypto101/" ∧
    getDataPath "/home/u" "Linux" = "/home/u" ++ "/.crypto101/" ∧
    getDataPath "/home/u" "Linux" = getDataPath "/home/u" "Darwin" ∧
    (ensureDataDir ⟨true, none⟩).1.dirExists = true ∧
    ensureDataDir ⟨true, none⟩ = (⟨true, none⟩, 0) := by
  have h := locateStoreDirectory_spec "/home/u" "Linux" "Linux" "Darwin" ⟨true, none⟩
  exact ⟨h.1, h.2.1 (by decide), h.2.2.1 (by decide), h.2.2.2.1, h.2.2.2.2 rfl⟩

/-- C9: the context returned by `_getContextFactory` is built solely
from the on-disk bundle contents read back after the (possible)
generation step: whenever a call succeeds, the returned context is
the one loaded from the final file contents, and two successful runs
whose final file contents agree return equal contexts, whichever path
(pre-existing or freshly generated) each one took. -/
theorem contextFactory_from_disk_only (env env2 : GenEnv) (wb wb2 : Workbench)
    (fs fs2 : FS) (email email2 : String) (ctx ctx2 : CtxFactory)
    (h1 : (getContextFactory env wb fs email).result = .ok ctx)
    (h2 : (getContextFactory env2 wb2 fs2 email2).result = .ok ctx2)
    (h3 : (getContextFactory env wb fs email).fs.pem
      = (getContextFactory env2 wb2 fs2 email2).fs.pem) :
    (getContextFactory env wb fs email).fs.pem = some ctx.pemData ∧
    ctx = ctx2 := by
  have a1 := getContextFactory_ok_from_disk env wb fs email ctx h1
  have a2 := getContextFactory_ok_from_disk env2 wb2 fs2 email2 ctx2 h2
  refine ⟨a1, ?_⟩
  rw [a1, a2] at h3
  obtain ⟨p1⟩ := ctx
  obtain ⟨p2⟩ := ctx2
  simp at h3
  rw [h3]

/-- C9 witness: a pre-existing-store run and a fresh generation run
that leave equal file contents return equal contexts. -/
theorem contextFactory_from_disk_only_witness :
    (getContextFactory okEnv Workbench.empty ⟨true, some [Chunk.keyPem 1, Chunk.certPem 2]⟩
      "x@y.z").fs.pem = some (loadPEM [Chunk.keyPem 1, Chunk.certPem 2]).pemData ∧
    loadPEM [Chunk.keyPem 1, Chunk.certPem 2] = loadPEM [Chunk.keyPem 1, Chunk.certPem 2] :=
  contextFactory_from_disk_only okEnv okEnv Workbench.empty Workbench.empty
    ⟨true, some [Chunk.keyPem 1, Chunk.certPem 2]⟩ ⟨false, none⟩ "x@y.z" "a@b.com"
    (loadPEM [Chunk.keyPem 1, Chunk.certPem 2]) (loadPEM [Chunk.keyPem 1, Chunk.certPem 2])
    (by decide) (by decide) (by decide)
